import Mathlib

/-!
Verification development for a Playwright page-object test framework.

The repository's own code is four page-object classes (`BasePage`,
`LoginPage`, `ProductsPage`, `InternetPage`), test specification files,
and a `globalSetup` script.  The specification additionally describes a
browser-session orchestration layer (SessionStateStore, BrowserContextPool,
EngineMatrix, TestRunner) that the repository consumes through the
automation library rather than implementing; those components are modelled
here from the specification's words, as marked in each doc comment.
Code that does exist in the repository (the `globalSetup` reuse decision,
`clickNewWindowLink`, `getCartItemCount`/`getText`) is embedded directly
from the source.
-/

/-- Cookie record of the data model: `{name, value, domain, path, expiry,
secure, httpOnly, sameSite}`. -/
structure Cookie where
  name : String
  value : String
  domain : String
  path : String
  expiry : Int
  secure : Bool
  httpOnly : Bool
  sameSite : String
  deriving DecidableEq, Repr

/-- Per-origin storage record of the data model: `{origin, localStorage}`. -/
structure OriginState where
  origin : String
  localStorage : List (String × String)
  deriving DecidableEq, Repr

/-- SessionState: cookies plus per-origin storage, as captured by the
automation library's `storageState()` and saved by
`BasePage.saveStorageState` / `LoginPage.loginAndSaveState`. -/
structure SessionState where
  cookies : List Cookie
  origins : List OriginState
  deriving DecidableEq, Repr

/-- Modelled from the spec: the persisted-state layout of §6 — a
self-describing record with a format version, a capture timestamp, and the
session state.  `SessionStateStore` itself is not implemented in the
repository (the tests call the automation library's `storageState`). -/
structure PersistedBlob where
  version : Nat
  capturedAt : Nat
  state : SessionState
  deriving DecidableEq, Repr

/-- Current format version written by `persist`. -/
def formatVersion : Nat := 1

/-- Errors of the persistence layer named by the spec. -/
inductive StoreError where
  | notFound
  | corruptState
  deriving DecidableEq, Repr

/-- Modelled from the spec: an abstract durable storage backend, one
optional blob per identifier. -/
def Store : Type := String → Option PersistedBlob

/-- Modelled from the spec: `persist(id, state)` writes state keyed by `id`,
fully overwriting any prior value for `id`, stamping the current format
version and the capture timestamp `now`. -/
def persist (id : String) (s : SessionState) (now : Nat) (store : Store) : Store :=
  fun j => if j = id then some ⟨formatVersion, now, s⟩ else store j

/-- Modelled from the spec: `load(id)` reads previously persisted state;
`NotFound` if absent, `CorruptState` on an unknown format version. -/
def load (id : String) (store : Store) : Except StoreError SessionState :=
  match store id with
  | none => Except.error StoreError.notFound
  | some b => if b.version = formatVersion then Except.ok b.state else Except.error StoreError.corruptState

/-- Modelled from the spec: `isStale(state, maxAgeMs)` compares the stored
capture timestamp against now; true when the state is older than
`maxAgeMs`.  Absent from the source. -/
def isStale (b : PersistedBlob) (maxAgeMs now : Nat) : Bool :=
  decide (maxAgeMs < now - b.capturedAt)

/-- Action taken by the global setup script. -/
inductive SetupAction where
  | skipSetup
  | freshLoginAndSave
  deriving DecidableEq, Repr

/-- Embedded from `globalSetup` (global-setup.js): when the auth file
exists, setup is skipped and the persisted state reused without being read
(`if (fs.existsSync(authFile)) { ...; return; }`); when absent, a browser
is launched, a fresh login performed and the state saved.  The decision
inspects only existence of the blob, never its contents. -/
def globalSetupDecision : Option PersistedBlob → SetupAction
  | some _ => SetupAction.skipSetup
  | none => SetupAction.freshLoginAndSave

/-- Sample empty session state used for concrete evaluations. -/
def sampleState : SessionState := ⟨[], []⟩

/-- C1: persisting a session state under an identifier and then loading that
identifier returns exactly the persisted state, for any storage backend. -/
theorem persist_load_roundtrip (store : Store) (id : String) (s : SessionState) (now : Nat) :
    load id (persist id s now store) = Except.ok s := by
  simp [load, persist]

/-- C2 counterexample: a blob captured at time 0, read at time 500000 with
`maxAgeMs = 1000`, is stale, yet `globalSetup` still reuses it because the
auth file exists — the reuse decision is by existence, not by `isStale`,
refuting the claim that a state older than `maxAgeMs` is re-captured. -/
theorem globalSetup_ignores_staleness :
    isStale ⟨formatVersion, 0, sampleState⟩ 1000 500000 = true ∧
    globalSetupDecision (some ⟨formatVersion, 0, sampleState⟩) = SetupAction.skipSetup := by
  constructor
  · decide
  · rfl

/-- C2 (amended): the reuse decision in `globalSetup` is based on existence
of the blob alone — a persisted state is reused even when it is stale by
the spec's `isStale` criterion, and when it is absent a fresh login is
performed and saved. -/
theorem globalSetup_reuse_by_existence (b : PersistedBlob) (maxAgeMs now : Nat)
    (_hstale : isStale b maxAgeMs now = true) :
    globalSetupDecision (some b) = SetupAction.skipSetup ∧
    globalSetupDecision none = SetupAction.freshLoginAndSave := by
  exact ⟨rfl, rfl⟩

/-- Witness for the amended C2 at a concrete stale blob. -/
theorem globalSetup_reuse_by_existence_witness :
    globalSetupDecision (some ⟨formatVersion, 0, sampleState⟩) = SetupAction.skipSetup ∧
    globalSetupDecision none = SetupAction.freshLoginAndSave :=
  globalSetup_reuse_by_existence ⟨formatVersion, 0, sampleState⟩ 1000 500000 (by decide)

/-- C3: loading a never-persisted identifier returns `NotFound` rather than
raising, and the global setup with no persisted blob proceeds by performing
a fresh (unauthenticated, then logged-in) setup rather than crashing. -/
theorem load_missing_notFound (store : Store) (id : String) (habsent : store id = none) :
    load id store = Except.error StoreError.notFound ∧
    globalSetupDecision (store id) = SetupAction.freshLoginAndSave := by
  rw [habsent]
  exact ⟨by simp [load, habsent], rfl⟩

/-- Witness for C3 on the empty backend. -/
theorem load_missing_notFound_witness :
    load "never-persisted" (fun _ => none) = Except.error StoreError.notFound :=
  (load_missing_notFound (fun _ => none) "never-persisted" rfl).1

/-- Engine kinds enumerated by the spec's EngineTarget. -/
inductive EngineKind where
  | chromiumLike
  | geckoLike
  | webkitLike
  deriving DecidableEq, Repr

/-- Modelled from the spec: EngineTarget — a named combination of engine
kind, viewport and user-agent override, immutable, enumerated in
declaration order (hence a list).  `EngineMatrix` is not implemented in
the repository (multi-browser fan-out is delegated to the automation
library's configuration). -/
structure EngineTarget where
  engineKind : EngineKind
  viewportWidth : Nat
  viewportHeight : Nat
  userAgentOverride : Option String
  deriving DecidableEq, Repr

/-- Modelled from the spec: `EngineMatrix.expand(targets, testId)` maps one
logical test to one `(testId, target)` pair per declared target, in
declaration order, as a pure function. -/
def expand (targets : List EngineTarget) (testId : String) : List (String × EngineTarget) :=
  targets.map (fun tg => (testId, tg))

/-- Concrete chromium-like target for witnesses. -/
def chromiumTarget : EngineTarget := ⟨EngineKind.chromiumLike, 1280, 720, none⟩

/-- Concrete webkit-like target for witnesses. -/
def webkitTarget : EngineTarget := ⟨EngineKind.webkitLike, 1280, 720, none⟩

/-- C4: `expand` yields exactly one pair per declared target, every produced
pair's target is one of the declared targets, the order of targets in the
result matches declaration order, and empty `targets` yields the empty
sequence. -/
theorem expand_matrix_spec (targets : List EngineTarget) (t : String) :
    (expand targets t).length = targets.length ∧
    (∀ p ∈ expand targets t, p.2 ∈ targets) ∧
    (expand targets t).map Prod.snd = targets ∧
    (targets = [] → expand targets t = []) := by
  refine ⟨by simp [expand], ?_, ?_, ?_⟩
  · intro p hp
    rcases List.mem_map.mp hp with ⟨tg, htg, rfl⟩
    exact htg
  · simp [expand]
  · intro h
    simp [expand, h]

/-- Witness for C4 on a concrete two-target matrix. -/
theorem expand_matrix_spec_witness :
    ((("t1", webkitTarget) : String × EngineTarget)).2 ∈ [chromiumTarget, webkitTarget] ∧
    expand [] "t1" = [] := by
  constructor
  · exact (expand_matrix_spec [chromiumTarget, webkitTarget] "t1").2.1 ("t1", webkitTarget)
      (by simp [expand])
  · exact (expand_matrix_spec [] "t1").2.2.2 rfl

/-- Outcome of one concrete run, as in the spec's RunResult. -/
inductive Outcome where
  | passed
  | failed
  | skipped
  | timedOut
  deriving DecidableEq, Repr

/-- Behaviour of one run's acquire/seed/body execution: it either completes,
throws (an exception during acquire, seed or the test body), exceeds its
timeout, or the engine process crashes. -/
inductive BodyResult where
  | ok
  | throws
  | timesOut
  | crashes
  deriving DecidableEq, Repr

/-- Modelled from the spec: how the TestRunner converts a run's behaviour
into an outcome — a thrown error or engine crash is caught and recorded as
`failed`, a timeout as `timedOut`; errors are never re-raised. -/
def runOutcome : BodyResult → Outcome
  | BodyResult.ok => Outcome.passed
  | BodyResult.throws => Outcome.failed
  | BodyResult.timesOut => Outcome.timedOut
  | BodyResult.crashes => Outcome.failed

/-- RunResult of the data model: target (none for a skipped test with no
expanded pairs), outcome, and the originating error if any. -/
structure RunResult where
  testId : String
  target : Option EngineTarget
  outcome : Outcome
  error : Option BodyResult
  deriving DecidableEq, Repr

/-- Modelled from the spec: execution of one concrete run, total — every
scheduled run produces a RunResult whatever its body does. -/
def runOne (testId : String) (r : EngineTarget × BodyResult) : RunResult :=
  ⟨testId, some r.1, runOutcome r.2,
    if r.2 = BodyResult.ok then none else some r.2⟩

/-- Modelled from the spec: the TestRunner executes every scheduled run of a
test independently, collecting one result per run. -/
def runAll (testId : String) (runs : List (EngineTarget × BodyResult)) : List RunResult :=
  runs.map (runOne testId)

/-- C5: every scheduled run yields exactly one RunResult (totality and
length preservation); the result at position i is a function of run i
alone, so an error in any other run never prevents it from executing; and
throwing, crashing and timing-out bodies are recorded as `failed` or
`timedOut` rather than propagating. -/
theorem run_failure_isolation (tid : String)
    (runs runs' : List (EngineTarget × BodyResult)) (i : Nat) :
    (runAll tid runs).length = runs.length ∧
    (runAll tid runs)[i]? = runs[i]?.map (runOne tid) ∧
    (runs[i]? = runs'[i]? → (runAll tid runs)[i]? = (runAll tid runs')[i]?) ∧
    (∀ tg, (runOne tid (tg, BodyResult.throws)).outcome = Outcome.failed ∧
      (runOne tid (tg, BodyResult.crashes)).outcome = Outcome.failed ∧
      (runOne tid (tg, BodyResult.timesOut)).outcome = Outcome.timedOut) := by
  refine ⟨by simp [runAll], by simp [runAll], ?_, ?_⟩
  · intro h
    simp [runAll, h]
  · intro tg
    exact ⟨rfl, rfl, rfl⟩

/-- Witness for C5: with a throwing first run replaced by a passing one, the
second run's recorded result is unchanged — sibling failure does not leak. -/
theorem run_failure_isolation_witness :
    (runAll "t" [(chromiumTarget, BodyResult.throws), (webkitTarget, BodyResult.ok)])[1]? =
    (runAll "t" [(chromiumTarget, BodyResult.ok), (webkitTarget, BodyResult.ok)])[1]? :=
  (run_failure_isolation "t"
    [(chromiumTarget, BodyResult.throws), (webkitTarget, BodyResult.ok)]
    [(chromiumTarget, BodyResult.ok), (webkitTarget, BodyResult.ok)] 1).2.2.1 rfl

/-- Errors surfaced by the pool, as named by the spec. -/
inductive PoolError where
  | launchError
  | seedError
  deriving DecidableEq, Repr

/-- Modelled from the spec: `BrowserContextPool.acquire` over a pool whose
observable resource state is the number of live engine processes.  A launch
failure starts nothing; a context-creation or seed failure happens after
the engine process has started, and the partial process is torn down
before the error is surfaced.  Returns the final resource count together
with the context (the engine id) or the surfaced error. -/
def acquire (live : Nat) (launchOk ctxOk seedOk : Bool) :
    Nat × Except PoolError Nat :=
  if launchOk = false then
    (live, Except.error PoolError.launchError)
  else
    let started := live + 1
    if ctxOk = false then
      (started - 1, Except.error PoolError.launchError)
    else if seedOk = false then
      (started - 1, Except.error PoolError.seedError)
    else
      (started, Except.ok live)

/-- Embedded from `globalSetup` (global-setup.js) lines 48-77: a browser is
launched, then login and state capture run inside `try { ... } finally
{ await browser.close(); }` — the browser process is closed whether or not
the setup body throws, and the error is re-thrown after cleanup. -/
def globalSetupFresh (live : Nat) (setupBodyOk : Bool) : Nat × Except PoolError Unit :=
  let started := live + 1
  if setupBodyOk then
    (started - 1, Except.ok ())
  else
    (started - 1, Except.error PoolError.launchError)

/-- C6: a failed `acquire` leaves the pool's resource state exactly as it
was — any partially started engine process is torn down before the error
is surfaced; correspondingly, `globalSetup`'s try/finally closes its
browser on both the success and the failure path. -/
theorem acquire_failure_no_leak (live : Nat) (launchOk ctxOk seedOk : Bool)
    (e : PoolError) (hfail : (acquire live launchOk ctxOk seedOk).2 = Except.error e) :
    (acquire live launchOk ctxOk seedOk).1 = live ∧
    (globalSetupFresh live false).1 = live := by
  refine ⟨?_, by simp [globalSetupFresh]⟩
  cases launchOk <;> cases ctxOk <;> cases seedOk <;>
    simp_all [acquire]

/-- Witness for C6: context creation fails after launch on a pool of 3 live
engines; the pool is back at 3 when the error surfaces. -/
theorem acquire_failure_no_leak_witness :
    (acquire 3 true false true).1 = 3 :=
  (acquire_failure_no_leak 3 true false true PoolError.launchError rfl).1

/-- Page or context handle with its observable closed flag. -/
structure PageHandle where
  handleId : Nat
  closed : Bool
  deriving DecidableEq, Repr

/-- Modelled from the spec: `BrowserContextPool.release` closes the context;
the automation library's `page.close()` (wrapped by
`InternetPage.closePage`) likewise resolves to the closed state and is a
no-op on an already-closed page. -/
def release (c : PageHandle) : PageHandle := { c with closed := true }

/-- Embedded from the test `should handle multiple pages in same context`
(04-speed-and-browsers.spec.js): the finally block closes the page only
when it is not already closed — `if (!page2.isClosed()) await
page2.close()`. -/
def closePageIfOpen (c : PageHandle) : PageHandle :=
  if c.closed then c else release c

/-- C7: `release` is idempotent — releasing twice equals releasing once,
the released handle is observably closed, and the guarded cleanup path
applied after a release changes nothing. -/
theorem release_idempotent (c : PageHandle) :
    release (release c) = release c ∧
    (release c).closed = true ∧
    closePageIfOpen (release c) = release c := by
  refine ⟨rfl, rfl, ?_⟩
  simp [closePageIfOpen, release]

/-- Modelled from the spec: the RunResult recorded for a test whose
EngineMatrix expansion produced no pairs — reported as `skipped`, not
silently dropped. -/
def skippedResult (testId : String) : RunResult :=
  ⟨testId, none, Outcome.skipped, none⟩

/-- Modelled from the spec: the TestRunner builds the SuiteReport from the
scheduled tests — for each test, one result per expanded run, or a single
`skipped` result when the expansion is empty. -/
def runSuite : List (String × List (EngineTarget × BodyResult)) → List RunResult
  | [] => []
  | tp :: rest =>
    (if tp.2.isEmpty then [skippedResult tp.1] else runAll tp.1 tp.2) ++ runSuite rest

/-- Modelled from the spec: the report of a cancelled suite — the results of
the runs that completed (the first `completed` scheduled runs) before the
cancellation signal, each recorded exactly as in a full run. -/
def cancelledReport (testId : String) (runs : List (EngineTarget × BodyResult))
    (completed : Nat) : List RunResult :=
  (runs.take completed).map (runOne testId)

/-- Helper: the finalized report's size counts one result per expanded pair
and one `skipped` result per test with no pairs. -/
theorem runSuite_length (tests : List (String × List (EngineTarget × BodyResult))) :
    (runSuite tests).length = (tests.map (fun tp => max 1 tp.2.length)).sum := by
  induction tests with
  | nil => rfl
  | cons tp rest ih =>
    cases h : tp.2 with
    | nil =>
      simp [runSuite, h, ih]
      omega
    | cons r rs =>
      simp [runSuite, h, runAll, ih]
      omega

/-- Helper: a test with an empty expansion contributes its skipped result. -/
theorem runSuite_mem_skipped (tests : List (String × List (EngineTarget × BodyResult)))
    (tp : String × List (EngineTarget × BodyResult))
    (hmem : tp ∈ tests) (hempty : tp.2 = []) :
    skippedResult tp.1 ∈ runSuite tests := by
  induction tests with
  | nil => cases hmem
  | cons hd rest ih =>
    rcases List.mem_cons.mp hmem with rfl | htail
    · simp [runSuite, hempty]
    · simp [runSuite]
      exact Or.inr (ih htail)

/-- Helper: every expanded run of every scheduled test has its result in the
finalized report. -/
theorem runSuite_mem_run (tests : List (String × List (EngineTarget × BodyResult)))
    (tp : String × List (EngineTarget × BodyResult))
    (r : EngineTarget × BodyResult)
    (hmem : tp ∈ tests) (hr : r ∈ tp.2) :
    runOne tp.1 r ∈ runSuite tests := by
  induction tests with
  | nil => cases hmem
  | cons hd rest ih =>
    rcases List.mem_cons.mp hmem with rfl | htail
    · have hne : tp.2.isEmpty = false := by
        cases h : tp.2 with
        | nil => rw [h] at hr; cases hr
        | cons a as => rfl
      have hin : runOne tp.1 r ∈ runAll tp.1 tp.2 :=
        List.mem_map_of_mem _ hr
      have hif : (if tp.2.isEmpty then [skippedResult tp.1] else runAll tp.1 tp.2)
          = runAll tp.1 tp.2 := by
        rw [hne]
        rfl
      show runOne tp.1 r ∈
        (if tp.2.isEmpty then [skippedResult tp.1] else runAll tp.1 tp.2) ++ runSuite rest
      rw [hif]
      exact List.mem_append_left _ hin
    · show runOne tp.1 r ∈
        (if hd.2.isEmpty then [skippedResult hd.1] else runAll hd.1 hd.2) ++ runSuite rest
      exact List.mem_append_right _ (ih htail)

/-- C8: the finalized SuiteReport contains exactly one RunResult per
expanded (test, target) pair, plus one `skipped` result per test whose
expansion was empty (so its size is the sum over tests of `max 1` the
number of pairs); each empty-expansion test's skipped result and each
expanded pair's result are present; and after a cancellation every run
that completed before the signal still has its exact result in the
report. -/
theorem suite_report_complete (tests : List (String × List (EngineTarget × BodyResult))) :
    (runSuite tests).length = (tests.map (fun tp => max 1 tp.2.length)).sum ∧
    (∀ tp ∈ tests, tp.2 = [] → skippedResult tp.1 ∈ runSuite tests) ∧
    (∀ tp ∈ tests, ∀ r ∈ tp.2, runOne tp.1 r ∈ runSuite tests) ∧
    (∀ (tid : String) (runs : List (EngineTarget × BodyResult)) (n i : Nat), i < n →
      (cancelledReport tid runs n)[i]? = runs[i]?.map (runOne tid)) := by
  refine ⟨runSuite_length tests, ?_, ?_, ?_⟩
  · intro tp hmem hempty
    exact runSuite_mem_skipped tests tp hmem hempty
  · intro tp hmem r hr
    exact runSuite_mem_run tests tp r hmem hr
  · intro tid runs n i hi
    simp [cancelledReport, List.getElem?_take_of_lt hi]

/-- Witness for C8 on a concrete suite: a test with an empty matrix yields
its skipped result, an expanded pair yields its run result, and a report
cancelled after one completed run still carries that run's result. -/
theorem suite_report_complete_witness :
    skippedResult "t1" ∈ runSuite [("t1", []), ("t2", [(chromiumTarget, BodyResult.ok)])] ∧
    runOne "t2" (chromiumTarget, BodyResult.ok) ∈
      runSuite [("t1", []), ("t2", [(chromiumTarget, BodyResult.ok)])] ∧
    (cancelledReport "t2" [(chromiumTarget, BodyResult.throws), (webkitTarget, BodyResult.ok)] 1)[0]? =
      some (runOne "t2" (chromiumTarget, BodyResult.throws)) := by
  refine ⟨?_, ?_, ?_⟩
  · exact (suite_report_complete [("t1", []), ("t2", [(chromiumTarget, BodyResult.ok)])]).2.1
      ("t1", []) (by simp) rfl
  · exact (suite_report_complete [("t1", []), ("t2", [(chromiumTarget, BodyResult.ok)])]).2.2.1
      ("t2", [(chromiumTarget, BodyResult.ok)]) (by simp) (chromiumTarget, BodyResult.ok) (by simp)
  · have h := (suite_report_complete []).2.2.2 "t2"
      [(chromiumTarget, BodyResult.throws), (webkitTarget, BodyResult.ok)] 1 0 (by decide)
    rw [h]
    rfl

/-- Operations issued by `clickNewWindowLink`, in the order the JavaScript
engine issues them. -/
inductive PwStep where
  | subscribePage
  | clickLink
  deriving DecidableEq, Repr

/-- Embedded from `InternetPage.clickNewWindowLink`: the argument array of
`Promise.all` is evaluated left to right, so
`this.page.context().waitForEvent('page')` — which installs the page-event
subscription before returning its promise — is issued before
`this.page.locator('a[target="_blank"]').first().click()`. -/
def clickNewWindowLinkSteps : List PwStep :=
  [PwStep.subscribePage, PwStep.clickLink]

/-- Events observable on the browser context after the subscription is
installed. -/
inductive PwEvent where
  | pageOpened (pageId : Nat)
  | otherEvent
  deriving DecidableEq, Repr

/-- Embedded from the automation library contract used by
`clickNewWindowLink`: `waitForEvent('page')` resolves with the first
page event delivered after the subscription. -/
def waitForEventPage (events : List PwEvent) : Option Nat :=
  events.findSome? (fun e =>
    match e with
    | PwEvent.pageOpened n => some n
    | PwEvent.otherEvent => none)

/-- C9: in `clickNewWindowLink` the page-event subscription strictly
precedes the triggering click in the issued-operation order; the operation
resolves with the first matching page event; and whenever a page event
occurs in the post-subscription event stream, the operation yields a page
(the new page is never missed). -/
theorem clickNewWindowLink_subscribes_before_click :
    (∃ (i j : Nat), i < j ∧
      clickNewWindowLinkSteps[i]? = some PwStep.subscribePage ∧
      clickNewWindowLinkSteps[j]? = some PwStep.clickLink) ∧
    (∀ (n : Nat) (rest : List PwEvent),
      waitForEventPage (PwEvent.pageOpened n :: rest) = some n) ∧
    (∀ (events : List PwEvent) (n : Nat), PwEvent.pageOpened n ∈ events →
      (waitForEventPage events).isSome = true) := by
  refine ⟨⟨0, 1, by decide, rfl, rfl⟩, fun n rest => rfl, ?_⟩
  intro events n hmem
  induction events with
  | nil => cases hmem
  | cons e rest ih =>
    cases e with
    | pageOpened m => rfl
    | otherEvent =>
      rcases List.mem_cons.mp hmem with h | h
      · cases h
      · exact ih h

/-- Witness for C9: a page event preceded by an unrelated event is still
delivered. -/
theorem clickNewWindowLink_subscribes_before_click_witness :
    (waitForEventPage [PwEvent.otherEvent, PwEvent.pageOpened 7]).isSome = true :=
  clickNewWindowLink_subscribes_before_click.2.2
    [PwEvent.otherEvent, PwEvent.pageOpened 7] 7 (by decide)

/-- Code points treated as whitespace by the JavaScript `StringToNumber`
trimming that `parseInt` performs: tab, LF, VT, FF, CR, space, NBSP, line
and paragraph separators, and the BOM. -/
def jsWhitespaceCodes : List Nat :=
  [9, 10, 11, 12, 13, 32, 160, 8232, 8233, 65279]

/-- Whitespace test on one character, as `parseInt` trims it. -/
def isJsWhitespace (c : Char) : Bool :=
  jsWhitespaceCodes.contains c.toNat

/-- Sign handling of `parseInt`: one optional leading `-` or `+`. -/
def dropSign : List Char → Int × List Char
  | '-' :: rest => (-1, rest)
  | '+' :: rest => (1, rest)
  | cs => (1, cs)

/-- Numeric value of a list of decimal digit characters. -/
def digitsVal (ds : List Char) : Nat :=
  ds.foldl (fun acc c => acc * 10 + (c.toNat - 48)) 0

/-- Embedded from JavaScript `parseInt(s, 10)` as called by
`getCartItemCount`: trim leading whitespace, read an optional sign, take
the longest prefix of decimal digits; `NaN` (modelled `none`) when that
prefix is empty, otherwise the signed value of the prefix. -/
def jsParseInt10 (s : String) : Option Int :=
  let trimmed := s.toList.dropWhile isJsWhitespace
  let signed := dropSign trimmed
  let ds := signed.2.takeWhile Char.isDigit
  if ds.isEmpty then none else some (signed.1 * (digitsVal ds : Int))

/-- JavaScript string coercion applied by `parseInt` to its argument: the
null returned by `textContent` becomes the string `"null"`. -/
def jsStringOfTextContent : Option String → String
  | none => "null"
  | some s => s

/-- Embedded from `BasePage.getText`: returns `page.textContent(selector)`,
which is a string or null. -/
def getText (textContent : Option String) : Option String := textContent

/-- Embedded from `ProductsPage.getCartItemCount`:
`parseInt(await this.getText(this.cartBadge), 10)` applied to the badge's
text content. -/
def getCartItemCount (badgeText : Option String) : Option Int :=
  jsParseInt10 (jsStringOfTextContent (getText badgeText))

/-- C10 counterexample: the badge text `"-3"` does not begin with a decimal
digit, yet `getCartItemCount` returns the well-defined value `-3` — so the
numeric result is not defined only when the text begins with a decimal
digit. -/
theorem getCartItemCount_sign_counterexample :
    getCartItemCount (some "-3") = some (-3) ∧
    ("-3".toList.headD 'x').isDigit = false := by
  constructor
  · rfl
  · decide

/-- C10 (amended): `getCartItemCount` returns NaN — modelled as `none`,
neither an error nor 0 — on a null `textContent` and on empty badge text;
in general its result is defined exactly when the badge text, after
leading JavaScript whitespace and an optional sign character, begins with
a decimal digit. -/
theorem getCartItemCount_nan_on_unparseable :
    getCartItemCount none = none ∧
    getCartItemCount (some "") = none ∧
    (∀ s : String, (getCartItemCount (some s)).isSome = true ↔
      ((dropSign (s.toList.dropWhile isJsWhitespace)).2.headD 'x').isDigit = true) := by
  refine ⟨rfl, rfl, ?_⟩
  intro s
  show (jsParseInt10 s).isSome = true ↔ _
  rw [jsParseInt10]
  cases h : (dropSign (s.toList.dropWhile isJsWhitespace)).2 with
  | nil => simp [h]
  | cons c cs =>
    simp only [h, List.takeWhile]
    cases hc : c.isDigit with
    | false => simp [hc, List.headD]
    | true => simp [hc, List.headD]

/-- Witness for the amended C10: badge text `"42"` begins with a digit and
the count is defined. -/
theorem getCartItemCount_nan_on_unparseable_witness :
    (getCartItemCount (some "42")).isSome = true :=
  (getCartItemCount_nan_on_unparseable.2.2 "42").mpr (by decide)
